import Mathlib

/-!
Shallow embedding of the risk-scoring and verification-state engine of the
`waqas-a-to-z-service-malakand1` service (NestJS/TypeScript), covering:

* `OtpService` (`src/modules/auth/services/otp.service.ts`),
* `IpBlockerService` (`src/modules/auth/services/ip-blocker.service.ts`),
* `FraudDetectionService` and `DualVerificationService`
  (`src/modules/auth/services/fraud-detection.service.ts`),
* `AuthService.signin` and the `User` entity helpers.

Conventions of the embedding:

* Time is modelled as `Int` milliseconds since the epoch (JavaScript
  `Date.getTime()`); `new Date() > x` becomes `now > x`.
* The TypeORM repository backing `Otp` rows is modelled as a `List Otp`;
  the JavaScript `Map` backing blocked IPs as a `List BlockedIpRecord`
  keyed by `ipAddress` (`Map.set` replaces, `Map.get` finds, `Map.delete`
  filters out).
* External collaborators (DNS MX resolution, carrier lookup, IP
  reputation, bcrypt password comparison, the speakeasy TOTP checker)
  are passed as explicit parameters; the in-repo mock implementations
  are also embedded verbatim where the claims exercise them.
* `Math.random()` is modelled as a rational `r` with `0 ≤ r < 1`.
* Thrown `BadRequestException` / `UnauthorizedException` values become
  `Except` errors; logging side effects are dropped.
-/

namespace AtoZ

/-! ## OTP entity (`src/database/entities/otp.entity.ts`) -/

/-- The `OtpPurpose` enum. -/
inductive OtpPurpose where
  | emailVer
  | phoneVer
  | passwordReset
  | login
deriving DecidableEq, Repr

/-- The `OtpStatus` enum. -/
inductive OtpStatus where
  | pending
  | verified
  | expired
  | failed
deriving DecidableEq, Repr

/-- The `Otp` entity row (fields used by `OtpService`). -/
structure Otp where
  id : Nat
  userId : Option String
  email : Option String
  phone : Option String
  code : String
  purpose : OtpPurpose
  status : OtpStatus
  attempts : Nat
  maxAttempts : Nat
  expiresAt : Int
  ipAddress : Option String
  verifiedAt : Option Int
deriving DecidableEq, Repr

/-! ## `OtpService` (`src/modules/auth/services/otp.service.ts`) -/

/-- The distinct `BadRequestException` messages thrown by
`OtpService.verifyOtp`. -/
inductive VerifyError where
  | notFound
  | hasExpired
  | alreadyUsed
  | maxAttemptsExceeded
  | invalidCode
deriving DecidableEq, Repr

/-- The success payload of `OtpService.verifyOtp`
(`{ verified: true, userId, email, phone }`). -/
structure VerifyOk where
  userId : Option String
  email : Option String
  phone : Option String
deriving DecidableEq, Repr

/-- The `OtpService.verifyOtp`, body after the `findOne` fetch: given the
fetched record and the current time, returns the outcome together with
the record as it is saved back to the repository. Mirrors the source
order of checks: time-based expiry, already-verified, attempts
exhausted, code comparison. -/
def verifyOtp (now : Int) (otp : Otp) (code : String) :
    Except VerifyError VerifyOk × Otp :=
  if now > otp.expiresAt then
    (Except.error VerifyError.hasExpired, { otp with status := OtpStatus.expired })
  else if otp.status = OtpStatus.verified then
    (Except.error VerifyError.alreadyUsed, otp)
  else if otp.attempts ≥ otp.maxAttempts then
    (Except.error VerifyError.maxAttemptsExceeded, { otp with status := OtpStatus.failed })
  else if otp.code ≠ code then
    (Except.error VerifyError.invalidCode, { otp with attempts := otp.attempts + 1 })
  else
    (Except.ok ⟨otp.userId, otp.email, otp.phone⟩,
      { otp with status := OtpStatus.verified, verifiedAt := some now })

/-- The `OtpService.generateRandomCode` as a natural number:
`Math.floor(100000 + Math.random() * 900000)` with the random draw `r`
passed in explicitly. -/
def generateRandomCodeNat (r : ℚ) : ℕ :=
  (Int.floor ((100000 : ℚ) + r * 900000)).toNat

/-- The `OtpService.generateRandomCode`: the `.toString()` of the drawn
number. -/
def generateRandomCode (r : ℚ) : String :=
  (generateRandomCodeNat r).repr

/-- The row filter of `OtpService.invalidatePreviousOtps`: `purpose`
and `status = PENDING` always, and each of `email` / `phone` / `userId`
only when the corresponding argument was supplied (the query builder
adds an `andWhere` clause per supplied argument). -/
def invalidateMatches (purpose : OtpPurpose) (email phone userId : Option String)
    (o : Otp) : Bool :=
  o.purpose = purpose
    && o.status = OtpStatus.pending
    && (match email with | some e => o.email = some e | none => true)
    && (match phone with | some p => o.phone = some p | none => true)
    && (match userId with | some u => o.userId = some u | none => true)

/-- The `OtpService.invalidatePreviousOtps`: `UPDATE ... SET status = EXPIRED`
over every matching row. -/
def invalidatePreviousOtps (purpose : OtpPurpose) (email phone userId : Option String)
    (store : List Otp) : List Otp :=
  store.map fun o =>
    if invalidateMatches purpose email phone userId o then
      { o with status := OtpStatus.expired }
    else o

/-- The `OtpService.generateOtp`: invalidates previous pending OTPs for the
key, draws a 6-digit code (random draw `r` explicit), and inserts a new
`PENDING` row with `expiresAt = now + 60s`, `attempts = 0`,
`maxAttempts = 3`. Returns `{ id, expiresIn: 60 }` and the new store. -/
def generateOtp (now : Int) (newId : Nat) (r : ℚ) (purpose : OtpPurpose)
    (email phone userId : Option String) (ipAddress : Option String)
    (store : List Otp) : (Nat × Nat) × List Otp :=
  let store1 := invalidatePreviousOtps purpose email phone userId store
  let otp : Otp :=
    { id := newId
      userId := userId
      email := email
      phone := phone
      code := generateRandomCode r
      purpose := purpose
      status := OtpStatus.pending
      attempts := 0
      maxAttempts := 3
      expiresAt := now + 60 * 1000
      ipAddress := ipAddress
      verifiedAt := none }
  ((newId, 60), store1 ++ [otp])

/-- The `OtpService.isEmailVerified`: `findOne` on
`(email, purpose = EMAIL_VERIFICATION, status = VERIFIED)` coerced to a
boolean (the `verifiedAt DESC` ordering does not affect existence). -/
def isEmailVerifiedB (store : List Otp) (email : String) : Bool :=
  store.any fun o =>
    o.email = some email
      && o.purpose = OtpPurpose.emailVer
      && o.status = OtpStatus.verified

/-- The `OtpService.isPhoneVerified`, analogous to `isEmailVerifiedB`. -/
def isPhoneVerifiedB (store : List Otp) (phone : String) : Bool :=
  store.any fun o =>
    o.phone = some phone
      && o.purpose = OtpPurpose.phoneVer
      && o.status = OtpStatus.verified

/-- The `OtpService.getPendingOtp`: `findOne` with filters `purpose`,
`email` / `phone` (when supplied), `status = PENDING`, and
`expiresAt: LessThan(new Date())` — i.e. `expiresAt < now`. -/
def getPendingOtp (now : Int) (purpose : OtpPurpose) (email phone : Option String)
    (store : List Otp) : Option Otp :=
  store.find? fun o =>
    o.purpose = purpose
      && (match email with | some e => o.email = some e | none => true)
      && (match phone with | some p => o.phone = some p | none => true)
      && o.status = OtpStatus.pending
      && decide (o.expiresAt < now)

/-! ## `IpBlockerService` (`src/modules/auth/services/ip-blocker.service.ts`) -/

/-- The `BlockedIpRecord` interface. -/
structure BlockedIpRecord where
  ipAddress : String
  reason : String
  blockedAt : Int
  unblockAt : Int
  isActive : Bool
deriving DecidableEq, Repr

/-- The `blockedIps` map, keyed by `ipAddress`. -/
abbrev IpStore := List BlockedIpRecord

/-- The `Map.get` on `blockedIps`. -/
def ipStoreGet (store : IpStore) (ip : String) : Option BlockedIpRecord :=
  store.find? fun r => r.ipAddress = ip

/-- The `Map.set` on `blockedIps`: replaces any record under the same key. -/
def ipStoreSet (store : IpStore) (r : BlockedIpRecord) : IpStore :=
  r :: store.filter fun x => x.ipAddress ≠ r.ipAddress

/-- The `Map.delete` on `blockedIps`. -/
def ipStoreDel (store : IpStore) (ip : String) : IpStore :=
  store.filter fun r => r.ipAddress ≠ ip

/-- The `IpBlockerService.blockIp`: builds a record with
`unblockAt = now + durationHours * 60 * 60 * 1000` and `isActive = true`,
stores it under the IP, and returns it. -/
def blockIp (now : Int) (ipAddress reason : String) (durationHours : Int)
    (store : IpStore) : BlockedIpRecord × IpStore :=
  let record : BlockedIpRecord :=
    { ipAddress := ipAddress
      reason := reason
      blockedAt := now
      unblockAt := now + durationHours * 60 * 60 * 1000
      isActive := true }
  (record, ipStoreSet store record)

/-- The `IpBlockerService.isIpBlocked`: missing record answers `false`;
`now > unblockAt` lazily deletes the record and answers `false`;
otherwise answers `record.isActive`. Returns the answer together with
the (possibly pruned) map. -/
def isIpBlocked (now : Int) (ipAddress : String) (store : IpStore) :
    Bool × IpStore :=
  match ipStoreGet store ipAddress with
  | none => (false, store)
  | some record =>
    if now > record.unblockAt then (false, ipStoreDel store ipAddress)
    else (record.isActive, store)

/-- The `IpBlockerService.getAllBlockedIps`: keeps every record with
`now ≤ unblockAt`, deleting the rest (full lazy sweep). -/
def getAllBlockedIps (now : Int) (store : IpStore) :
    List BlockedIpRecord × IpStore :=
  (store.filter fun r => decide (now ≤ r.unblockAt),
   store.filter fun r => decide (now ≤ r.unblockAt))

/-! ## `FraudDetectionService`
(`src/modules/auth/services/fraud-detection.service.ts`) -/

/-- The `FraudReason` enum. -/
inductive FraudReason where
  | fakeEmail
  | disposableEmail
  | invalidMxRecord
  | fakePhone
  | voipNumber
  | virtualSim
  | invalidCarrier
  | vpnIp
  | proxyIp
  | torIp
  | blacklistedIp
  | highRiskCountry
  | bruteforceAttempt
  | multipleAccountsSameIp
deriving DecidableEq, Repr

/-- The `FraudCheckResult` interface. The free-form `details` evidence
map is not modelled (no claim refers to it); `fraudScore` is an `Int`
mirroring the JavaScript number accumulator. -/
structure FraudCheckResult where
  isFraud : Bool
  fraudScore : Int
  reasons : List FraudReason
deriving DecidableEq, Repr

/-- The `disposableEmailDomains` set. -/
def disposableEmailDomains : List String :=
  ["tempmail.com", "guerrillamail.com", "10minutemail.com", "mailinator.com",
   "throwaway.email", "temp-mail.org", "yopmail.com", "maildrop.cc",
   "trashmail.com", "fakeinbox.com", "temp-mail.io", "sharklasers.com",
   "spam4.me", "mailnesia.com", "tempmail.net"]

/-- The `isDisposableEmail`: take the chunk after the first `@`
(`email.split('@')[1]`), lower-case it, and test set membership. -/
def isDisposableEmail (email : String) : Bool :=
  match (email.splitOn "@").get? 1 with
  | some domain => disposableEmailDomains.contains domain.toLower
  | none => false

/-- Auxiliary: does `needle` occur at the head of `hay`? -/
def charsHavePre : List Char → List Char → Bool
  | [], _ => true
  | _ :: _, [] => false
  | a :: as, b :: bs => a = b && charsHavePre as bs

/-- Auxiliary: does `needle` occur anywhere inside `hay`?
(semantics of an unanchored literal regular-expression test). -/
def charsHaveSub (needle : List Char) : List Char → Bool
  | [] => needle.isEmpty
  | c :: cs => charsHavePre needle (c :: cs) || charsHaveSub needle cs

/-- Case-insensitive substring test, as performed by a `/…/i` literal
pattern. -/
def containsCI (hay needle : String) : Bool :=
  charsHaveSub needle.toLower.data hay.toLower.data

/-- Semantics of `/^[0-9]+@/.test(s)` after the leading digit:
scan digits until an `@` is found. -/
def digitsThenAtTail : List Char → Bool
  | [] => false
  | c :: cs => if c = '@' then true else if c.isDigit then digitsThenAtTail cs else false

/-- Semantics of `/^[0-9]+@/.test(s)`: one or more leading digits
immediately followed by `@`. -/
def digitsThenAt (s : List Char) : Bool :=
  match s with
  | [] => false
  | c :: cs => c.isDigit && digitsThenAtTail cs

/-- Semantics of `/[0-9]{10,}@/.test(s)`: somewhere in the string, a run
of at least ten digits immediately followed by `@`. `run` counts the
digits seen so far. -/
def longDigitRunThenAt : List Char → Nat → Bool
  | [], _ => false
  | c :: cs, run =>
    if c = '@' then decide (10 ≤ run) || longDigitRunThenAt cs 0
    else if c.isDigit then longDigitRunThenAt cs (run + 1)
    else longDigitRunThenAt cs 0

/-- The `hasSpamPatterns`: the disjunction of the seven literal patterns
(`/^[0-9]+@/`, `/test/i`, `/fake/i`, `/spam/i`, `/noreply/i`,
`/admin@admin/i`, `/[0-9]{10,}@/`). -/
def hasSpamPatterns (email : String) : Bool :=
  digitsThenAt email.data
    || containsCI email "test"
    || containsCI email "fake"
    || containsCI email "spam"
    || containsCI email "noreply"
    || containsCI email "admin@admin"
    || longDigitRunThenAt email.data 0

/-- One guarded heuristic block
(`if (cond) { reasons.push(r); fraudScore += w; }`): the accumulator
pairs the ordered reason list with the running score. -/
def addIf (cond : Bool) (r : FraudReason) (w : Int)
    (st : List FraudReason × Int) : List FraudReason × Int :=
  if cond then (st.1 ++ [r], st.2 + w) else st

/-- The `checkEmailFraud`: the MX-resolution outcome (`validateMxRecord`,
an external DNS lookup; a lookup failure yields `false`) is passed in
as `hasMxRecord`. Weights: disposable 40, missing MX 50, spam pattern
30; `fraudScore` is clamped to 100 and `isFraud` compares the unclamped
sum against 50. -/
def checkEmailFraud (email : String) (hasMxRecord : Bool) : FraudCheckResult :=
  let st : List FraudReason × Int := ([], 0)
  let st := addIf (isDisposableEmail email) FraudReason.disposableEmail 40 st
  let st := addIf (!hasMxRecord) FraudReason.invalidMxRecord 50 st
  let st := addIf (hasSpamPatterns email) FraudReason.fakeEmail 30 st
  { isFraud := decide (st.2 ≥ 50), fraudScore := min st.2 100, reasons := st.1 }

/-- Result shape of the `checkCarrierInfo` provider call. -/
structure CarrierInfo where
  isValid : Bool
  isVoip : Bool
  isVirtual : Bool
deriving DecidableEq, Repr

/-- The in-repo mock `checkCarrierInfo` (always valid, not VOIP, not
virtual). -/
def mockCarrierInfo : CarrierInfo :=
  { isValid := true, isVoip := false, isVirtual := false }

/-- The `isValidPhoneFormat`: strip non-digits and require 10–15 digits. -/
def isValidPhoneFormat (phoneNumber : String) : Bool :=
  let digitsOnly := phoneNumber.data.filter Char.isDigit
  decide (10 ≤ digitsOnly.length) && decide (digitsOnly.length ≤ 15)

/-- The `checkPhoneFraud`: the carrier-lookup and recycled-number provider
results are passed in (the in-repo mocks are `mockCarrierInfo` and
`false`). Weights: bad format 40, invalid carrier 50, VOIP 60, virtual
SIM 70, recycled 35; VOIP/virtual are only examined when the carrier is
valid. -/
def checkPhoneFraud (phoneNumber : String) (carrier : CarrierInfo)
    (recycled : Bool) : FraudCheckResult :=
  let st : List FraudReason × Int := ([], 0)
  let st := addIf (!isValidPhoneFormat phoneNumber) FraudReason.fakePhone 40 st
  let st :=
    if !carrier.isValid then (st.1 ++ [FraudReason.invalidCarrier], st.2 + 50)
    else addIf carrier.isVirtual FraudReason.virtualSim 70
      (addIf carrier.isVoip FraudReason.voipNumber 60 st)
  let st := addIf recycled FraudReason.fakePhone 35 st
  { isFraud := decide (st.2 ≥ 50), fraudScore := min st.2 100, reasons := st.1 }

/-- The `blacklistedIpRanges` list. -/
def blacklistedIpRanges : List String :=
  ["192.0.2.0/24", "198.51.100.0/24", "203.0.113.0/24"]

/-- The `ipInRange`: the repository stubs this to `false` for every pair. -/
def ipInRange (_ip _range : String) : Bool := false

/-- The `isBlacklistedIp`: any range containing the IP (with the stubbed
`ipInRange` this never fires). -/
def isBlacklistedIp (ipAddress : String) : Bool :=
  blacklistedIpRanges.any fun range => ipInRange ipAddress range

/-- The `highRiskCountries` set. -/
def highRiskCountries : List String := ["KP", "IR", "SY", "CU"]

/-- Result shape of the `checkIpReputation` provider call. -/
structure IpReputation where
  isVpn : Bool
  isProxy : Bool
  isTor : Bool
  country : Option String
deriving DecidableEq, Repr

/-- The in-repo mock `checkIpReputation`. -/
def mockIpReputation : IpReputation :=
  { isVpn := false, isProxy := false, isTor := false, country := some "US" }

/-- The `checkIpFraud`: the reputation lookup, the
`checkBruteforceAttempt` repository count and the
`checkMultipleAccountsFromIp` count are passed in. Weights:
blacklisted 100, VPN 40, proxy 40, Tor 80, high-risk country 50,
brute force 60, ≥3 accounts from the IP 50 (the last only when an
email was supplied). -/
def checkIpFraud (ipAddress : String) (rep : IpReputation)
    (bruteforceDetected : Bool) (emailGiven : Bool) (accountCount : Nat) :
    FraudCheckResult :=
  let st : List FraudReason × Int := ([], 0)
  let st := addIf (isBlacklistedIp ipAddress) FraudReason.blacklistedIp 100 st
  let st := addIf rep.isVpn FraudReason.vpnIp 40 st
  let st := addIf rep.isProxy FraudReason.proxyIp 40 st
  let st := addIf rep.isTor FraudReason.torIp 80 st
  let st := match rep.country with
    | some c => addIf (highRiskCountries.contains c) FraudReason.highRiskCountry 50 st
    | none => st
  let st := addIf bruteforceDetected FraudReason.bruteforceAttempt 60 st
  let st := addIf (emailGiven && decide (accountCount ≥ 3))
    FraudReason.multipleAccountsSameIp 50 st
  { isFraud := decide (st.2 ≥ 50), fraudScore := min st.2 100, reasons := st.1 }

/-! ## `DualVerificationService`
(`src/modules/auth/services/fraud-detection.service.ts`, second class) -/

/-- The `LoginAttemptRecord` interface (the per-key list under
`loginAttempts`). -/
structure LoginAttemptRecord where
  ipAddress : String
  email : String
  timestamp : Int
  success : Bool
deriving DecidableEq, Repr

/-- Placeholder record used for the (unreachable) out-of-bounds index
accesses in `checkBruteforceAttempt`. -/
def dummyAttempt : LoginAttemptRecord :=
  { ipAddress := "", email := "", timestamp := 0, success := true }

/-- The `DualVerificationService.checkBruteforceAttempt`, given the
attempt list stored for the `(email, ipAddress)` key: counts failed
attempts newer than `now - 15 min`; when at least five attempts exist,
first tests whether the last five (`slice(-5)`, indices 0 and 4) are
less than 30 s apart end-to-end and returns `true` if so; otherwise
answers whether there are at least five recent failures. -/
def checkBruteforceAttempt (now : Int) (attempts : List LoginAttemptRecord) :
    Bool :=
  let fifteenMinutesAgo := now - 15 * 60 * 1000
  let recentFailedAttempts := attempts.filter fun a =>
    !a.success && decide (a.timestamp > fifteenMinutesAgo)
  if 5 ≤ attempts.length then
    let lastFiveAttempts := attempts.drop (attempts.length - 5)
    let timeDiff := (lastFiveAttempts.getD 4 dummyAttempt).timestamp
      - (lastFiveAttempts.getD 0 dummyAttempt).timestamp
    if timeDiff < 30 * 1000 then true
    else decide (5 ≤ recentFailedAttempts.length)
  else decide (5 ≤ recentFailedAttempts.length)

/-- The `UserStatus` enum (`src/database/entities/user.entity.ts`). -/
inductive UserStatus where
  | active
  | inactive
  | suspended
  | pendingVer
deriving DecidableEq, Repr

/-- The `User` entity row (fields used by `AuthService` and
`DualVerificationService`). -/
structure UserAcct where
  email : String
  phone : Option String
  status : UserStatus
  mfaEnabled : Bool
  mfaSecret : String
  failedLoginAttempts : Nat
  lockedUntil : Option Int
  lastLoginAt : Option Int
  lastLoginIp : Option String
deriving DecidableEq, Repr

/-- The `VerificationStatus` interface. -/
structure VerificationStatus where
  emailVerified : Bool
  phoneVerified : Bool
  fraudCheckPassed : Bool
  ipClean : Bool
  sessionValid : Bool
  canLogin : Bool
  failureReasons : List String
deriving DecidableEq, Repr

/-- The `DualVerificationService.checkLoginEligibility`, with the
collaborator calls passed in as data: `user` is the repository lookup,
`ipBlocked` the `IpBlockerService.isIpBlocked` answer,
`emailOtpVerified` the `isEmailVerified` answer, `phoneOtpVerified` the
`isPhoneVerified` answer per phone, `ipFraud` the `checkIpFraud`
result, `bruteforce` the `checkBruteforceAttempt` answer,
`deviceTrusted` the `isDeviceTrusted` answer per fingerprint. Steps
mirror the source in order; the side effects (fraud logging and the
24 h `blockIp` escalation on brute force) mutate collaborator state,
not the returned status, and are dropped here. -/
def checkLoginEligibility (now : Int) (user : Option UserAcct)
    (ipBlocked : Bool) (emailOtpVerified : Bool)
    (phoneOtpVerified : String → Bool) (ipFraud : FraudCheckResult)
    (bruteforce : Bool) (deviceFingerprint : Option String)
    (deviceTrusted : String → Bool) : VerificationStatus :=
  match user with
  | none =>
    { emailVerified := false, phoneVerified := false, fraudCheckPassed := false
      ipClean := false, sessionValid := false, canLogin := false
      failureReasons := ["User not found"] }
  | some u =>
    -- step 2: IP block gate (sets `ipClean`, appends a reason)
    let ipClean1 : Bool := if ipBlocked then false else true
    let reasons1 : List String :=
      if ipBlocked then ["IP address is blocked due to suspicious activity"] else []
    -- step 3: e-mail OTP verification
    let emailVerified := emailOtpVerified
    let reasons2 :=
      if !emailVerified then reasons1 ++ ["Email not verified"] else reasons1
    -- step 4: phone OTP verification, only when a phone is on file
    let phoneVerified : Bool :=
      match u.phone with
      | some p => phoneOtpVerified p
      | none => false
    let reasons3 :=
      match u.phone with
      | some p =>
        if !phoneOtpVerified p then reasons2 ++ ["Mobile number not verified"]
        else reasons2
      | none => reasons2
    -- step 5: IP fraud score (fails both `ipClean` and `fraudCheckPassed`)
    let ipClean2 := if ipFraud.isFraud then false else ipClean1
    let fraudCheckPassed1 : Bool := if ipFraud.isFraud then false else true
    let reasons4 :=
      if ipFraud.isFraud then reasons3 ++ ["IP fraud detected"] else reasons3
    -- step 6: brute-force detection (escalating 24 h `blockIp` side effect dropped)
    let fraudCheckPassed2 := if bruteforce then false else fraudCheckPassed1
    let ipClean3 := if bruteforce then false else ipClean2
    let reasons5 :=
      if bruteforce then
        reasons4 ++ ["Too many login attempts. Please try again later."]
      else reasons4
    -- step 7: device fingerprint trust
    let sessionValid1 : Bool :=
      match deviceFingerprint with
      | some d => if !deviceTrusted d then false else true
      | none => true
    let reasons6 :=
      match deviceFingerprint with
      | some d =>
        if !deviceTrusted d then
          reasons5 ++ ["Unrecognized device. Additional verification required."]
        else reasons5
      | none => reasons5
    -- step 8: suspended account
    let sessionValid2 :=
      if u.status = UserStatus.suspended then false else sessionValid1
    let reasons7 :=
      if u.status = UserStatus.suspended then
        reasons6 ++ ["Account is temporarily locked. Please contact support."]
      else reasons6
    -- step 9: active temporary lock
    let sessionValid3 :=
      match u.lockedUntil with
      | some t => if now < t then false else sessionValid2
      | none => sessionValid2
    let reasons8 :=
      match u.lockedUntil with
      | some t =>
        if now < t then
          reasons7 ++ ["Account is temporarily frozen due to security concerns."]
        else reasons7
      | none => reasons7
    let canLogin :=
      emailVerified && phoneVerified && fraudCheckPassed2 && ipClean3 && sessionValid3
    { emailVerified := emailVerified, phoneVerified := phoneVerified
      fraudCheckPassed := fraudCheckPassed2, ipClean := ipClean3
      sessionValid := sessionValid3, canLogin := canLogin
      failureReasons := reasons8 }

/-! ## `AuthService.signin` and `User` entity helpers -/

/-- The `User.isAccountLocked`: `lockedUntil` set and strictly in the
future. -/
def isAccountLocked (now : Int) (u : UserAcct) : Bool :=
  match u.lockedUntil with
  | none => false
  | some t => decide (t > now)

/-- The `User.canAttemptLogin`: `ACTIVE` status and not locked. -/
def canAttemptLogin (now : Int) (u : UserAcct) : Bool :=
  u.status = UserStatus.active && !isAccountLocked now u

/-- The client-visible rejections thrown by `AuthService.signin`. -/
inductive SigninError where
  | invalidCredentials
  | accountLockedOrInactive
  | mfaCodeRequired
  | invalidMfaCode
deriving DecidableEq, Repr

/-- The `AuthService.signin`, with external collaborators passed in:
`user` is the repository lookup for the e-mail, `pwOk` the bcrypt
`validatePassword` outcome, and `totpVerify secret token window` the
speakeasy TOTP check. Returns the outcome (`Except.ok` means
`generateTokens` was reached) and the user row as saved back. Mirrors
the source: lockout gate, password check with failed-attempt counting
and the 5-strikes → 15-minute lock, MFA gate with `window: 2`, then
counter reset and token issuance. -/
def signin (now : Int) (totpVerify : String → String → Nat → Bool)
    (user : Option UserAcct) (pwOk : Bool) (mfaCode : Option String)
    (ipAddress : String) : Except SigninError Unit × Option UserAcct :=
  match user with
  | none => (Except.error SigninError.invalidCredentials, none)
  | some u =>
    if !canAttemptLogin now u then
      (Except.error SigninError.accountLockedOrInactive, some u)
    else if !pwOk then
      let u1 := { u with failedLoginAttempts := u.failedLoginAttempts + 1 }
      let u2 :=
        if u1.failedLoginAttempts ≥ 5 then
          { u1 with lockedUntil := some (now + 15 * 60 * 1000)
                    status := UserStatus.suspended }
        else u1
      (Except.error SigninError.invalidCredentials, some u2)
    else
      match u.mfaEnabled, mfaCode with
      | true, none => (Except.error SigninError.mfaCodeRequired, some u)
      | true, some c =>
        if !totpVerify u.mfaSecret c 2 then
          (Except.error SigninError.invalidMfaCode, some u)
        else
          (Except.ok (),
           some { u with failedLoginAttempts := 0, lockedUntil := none
                         lastLoginAt := some now, lastLoginIp := some ipAddress
                         status := UserStatus.active })
      | false, _ =>
        (Except.ok (),
         some { u with failedLoginAttempts := 0, lockedUntil := none
                       lastLoginAt := some now, lastLoginIp := some ipAddress
                       status := UserStatus.active })

/-! ## Specification-side predicates (stated from the claims, to be
compared against the embedded code) -/

/-- Spec-side contract on a fraud-check result: score within 0–100 and
`isFraud` exactly at score ≥ 50. -/
def scoreSpecOk (r : FraudCheckResult) : Prop :=
  0 ≤ r.fraudScore ∧ r.fraudScore ≤ 100 ∧ (r.isFraud = true ↔ 50 ≤ r.fraudScore)

/-- Spec-side count of failed attempts falling within the last
15 minutes before `now`. -/
def recentFailureCount (now : Int) (attempts : List LoginAttemptRecord) : Nat :=
  attempts.countP fun a => decide (a.success = false ∧ now - 15 * 60 * 1000 < a.timestamp)

/-- Spec-side burst condition: at least five recorded attempts, and the
last five span less than 30 seconds end-to-end (first of the last five
to the last attempt). -/
def lastFiveBurst (attempts : List LoginAttemptRecord) : Prop :=
  5 ≤ attempts.length ∧
    ∃ a b, (attempts.drop (attempts.length - 5)).head? = some a ∧
      attempts.getLast? = some b ∧ b.timestamp - a.timestamp < 30 * 1000

/-! ## Concrete scenario data used by counterexamples and witnesses -/

/-- OTP store after a first `generateOtp` for
`(EMAIL_VERIFICATION, a@b.com)` at `t = 0` with random draw `1/4`. -/
def c2store1 : List Otp :=
  (generateOtp 0 1 (1/4) OtpPurpose.emailVer (some "a@b.com") none none none []).2

/-- OTP store after a second `generateOtp` for the same key at
`t = 30 s` (the first record is superseded). -/
def c2store2 : List Otp :=
  (generateOtp 30000 2 (1/2) OtpPurpose.emailVer (some "a@b.com") none none none
    c2store1).2

/-- The first (superseded) OTP record as it sits in `c2store2`:
status `EXPIRED`, code `325000` (the draw `1/4` yields
`floor(100000 + 225000)`), `expiresAt` = 60 s. -/
def c2firstOtp : Otp :=
  { id := 1, userId := none, email := some "a@b.com", phone := none
    code := "325000", purpose := OtpPurpose.emailVer, status := OtpStatus.expired
    attempts := 0, maxAttempts := 3, expiresAt := 60000, ipAddress := none
    verifiedAt := none }

/-- A freshly issued `PENDING` record (attempts 0 of 3), used to replay
wrong-code attempts. -/
def c3otp : Otp :=
  { id := 7, userId := none, email := some "u@example.com", phone := none
    code := "654321", purpose := OtpPurpose.emailVer, status := OtpStatus.pending
    attempts := 0, maxAttempts := 3, expiresAt := 100000, ipAddress := none
    verifiedAt := none }

/-- The `c3otp` after one wrong-code verification attempt. -/
def c3r1 : Otp := (verifyOtp 0 c3otp "000000").2

/-- The `c3otp` after two wrong-code verification attempts. -/
def c3r2 : Otp := (verifyOtp 1000 c3r1 "000000").2

/-- The `c3otp` after three wrong-code verification attempts. -/
def c3r3 : Otp := (verifyOtp 2000 c3r2 "000000").2

/-- A `VERIFIED` record whose `expiresAt` has already passed. -/
def c5otp : Otp :=
  { id := 9, userId := none, email := some "v@example.com", phone := none
    code := "111111", purpose := OtpPurpose.emailVer, status := OtpStatus.verified
    attempts := 1, maxAttempts := 3, expiresAt := 1000, ipAddress := none
    verifiedAt := some 500 }

/-- An expired `PENDING` record matching `(EMAIL_VERIFICATION, a@b.com)`,
used to exercise `getPendingOtp`. -/
def c9otp : Otp :=
  { id := 4, userId := none, email := some "a@b.com", phone := none
    code := "222222", purpose := OtpPurpose.emailVer, status := OtpStatus.pending
    attempts := 0, maxAttempts := 3, expiresAt := 0, ipAddress := none
    verifiedAt := none }

/-- An account with no phone number on file, active and unlocked. -/
def c1user : UserAcct :=
  { email := "u@example.com", phone := none, status := UserStatus.active
    mfaEnabled := false, mfaSecret := "", failedLoginAttempts := 0
    lockedUntil := none, lastLoginAt := none, lastLoginIp := none }

/-- An active account with four failed login attempts already on
record, with MFA enabled. -/
def c8user : UserAcct :=
  { email := "w@example.com", phone := none, status := UserStatus.active
    mfaEnabled := true, mfaSecret := "SECRETBASE32", failedLoginAttempts := 4
    lockedUntil := none, lastLoginAt := none, lastLoginIp := none }

/-! ## Shared helper lemmas -/

/-- Every fraud-check result is assembled as
`{ isFraud := decide (s ≥ 50), fraudScore := min s 100, reasons := rs }`
from a raw sum `s`; when `0 ≤ s` that shape satisfies the score
contract. -/
theorem mkResultOk (rs : List FraudReason) (s : Int) (hs : 0 ≤ s) :
    scoreSpecOk
      { isFraud := decide (s ≥ 50), fraudScore := min s 100, reasons := rs } := by
  refine ⟨le_min hs (by norm_num), min_le_right _ _, ?_⟩
  simp only [decide_eq_true_eq, ge_iff_le]
  constructor
  · intro h
    exact le_min h (by norm_num)
  · intro h
    exact h.trans (min_le_left _ _)

/-- The stubbed `ipInRange` makes the static IP blacklist inert. -/
theorem isBlacklistedIp_eq_false (ip : String) : isBlacklistedIp ip = false := rfl

/-- A guarded heuristic block keeps the running score nonnegative. -/
theorem addIf_nonneg {c : Bool} {r : FraudReason} {w : Int}
    {st : List FraudReason × Int} (hw : 0 ≤ w) (h : 0 ≤ st.2) :
    0 ≤ (addIf c r w st).2 := by
  unfold addIf
  split
  · exact add_nonneg h hw
  · exact h

/-- Score contract for `checkEmailFraud`. -/
theorem checkEmailFraud_scoreOk (email : String) (hasMx : Bool) :
    scoreSpecOk (checkEmailFraud email hasMx) := by
  unfold checkEmailFraud
  exact mkResultOk _ _
    (addIf_nonneg (by norm_num)
      (addIf_nonneg (by norm_num) (addIf_nonneg (by norm_num) (by norm_num))))

/-- Score contract for `checkPhoneFraud`. -/
theorem checkPhoneFraud_scoreOk (phone : String) (carrier : CarrierInfo)
    (recycled : Bool) : scoreSpecOk (checkPhoneFraud phone carrier recycled) := by
  unfold checkPhoneFraud
  refine mkResultOk _ _ (addIf_nonneg (by norm_num) ?_)
  split
  · exact add_nonneg (addIf_nonneg (by norm_num) (by norm_num)) (by norm_num)
  · exact addIf_nonneg (by norm_num)
      (addIf_nonneg (by norm_num) (addIf_nonneg (by norm_num) (by norm_num)))

/-- Score contract for `checkIpFraud`. -/
theorem checkIpFraud_scoreOk (ip : String) (rep : IpReputation) (bf eg : Bool)
    (ac : Nat) : scoreSpecOk (checkIpFraud ip rep bf eg ac) := by
  obtain ⟨vpn, proxy, tor, country⟩ := rep
  unfold checkIpFraud
  refine mkResultOk _ _ (addIf_nonneg (by norm_num) (addIf_nonneg (by norm_num) ?_))
  have base : (0 : Int) ≤
      (addIf tor FraudReason.torIp 80
        (addIf proxy FraudReason.proxyIp 40
          (addIf vpn FraudReason.vpnIp 40
            (addIf (isBlacklistedIp ip) FraudReason.blacklistedIp 100 ([], 0))))).2 :=
    addIf_nonneg (by norm_num)
      (addIf_nonneg (by norm_num)
        (addIf_nonneg (by norm_num) (addIf_nonneg (by norm_num) (by norm_num))))
  rcases country with _ | c
  · exact base
  · exact addIf_nonneg (by norm_num) base

/-- Claim C6: for every input, each of `checkEmailFraud`,
`checkPhoneFraud` and `checkIpFraud` returns a result with
`0 ≤ fraudScore ≤ 100`, and `isFraud` holds exactly when
`fraudScore ≥ 50`. -/
theorem fraud_checks_score_contract (email : String) (hasMx : Bool)
    (phone : String) (carrier : CarrierInfo) (recycled : Bool) (ip : String)
    (rep : IpReputation) (bf eg : Bool) (ac : Nat) :
    scoreSpecOk (checkEmailFraud email hasMx) ∧
    scoreSpecOk (checkPhoneFraud phone carrier recycled) ∧
    scoreSpecOk (checkIpFraud ip rep bf eg ac) :=
  ⟨checkEmailFraud_scoreOk email hasMx, checkPhoneFraud_scoreOk phone carrier recycled,
    checkIpFraud_scoreOk ip rep bf eg ac⟩

/-- Claim C10: every issued OTP code is the decimal representation of
an integer between 100000 and 999999 inclusive — exactly six digits
with a nonzero leading digit. -/
theorem generateRandomCode_six_digits :
    ∀ r : ℚ, 0 ≤ r → r < 1 →
      100000 ≤ generateRandomCodeNat r ∧ generateRandomCodeNat r ≤ 999999 ∧
      (Nat.digits 10 (generateRandomCodeNat r)).length = 6 ∧
      (Nat.digits 10 (generateRandomCodeNat r)).getLast? ≠ some 0 := by
  intro r h0 h1
  have hx0 : (100000 : ℚ) ≤ 100000 + r * 900000 := by nlinarith
  have hx1 : (100000 : ℚ) + r * 900000 < 1000000 := by nlinarith
  have hfl : (100000 : ℤ) ≤ Int.floor ((100000 : ℚ) + r * 900000) := by
    rw [Int.le_floor]
    exact_mod_cast hx0
  have hfu : Int.floor ((100000 : ℚ) + r * 900000) < (1000000 : ℤ) := by
    rw [Int.floor_lt]
    exact_mod_cast hx1
  have hl : 100000 ≤ generateRandomCodeNat r := by
    unfold generateRandomCodeNat
    omega
  have hu : generateRandomCodeNat r ≤ 999999 := by
    unfold generateRandomCodeNat
    omega
  have hne : generateRandomCodeNat r ≠ 0 := by omega
  refine ⟨hl, hu, ?_, ?_⟩
  · rw [Nat.digits_len 10 _ (by norm_num) hne]
    have hlog : Nat.log 10 (generateRandomCodeNat r) = 5 :=
      Nat.log_eq_of_pow_le_of_lt_pow (by norm_num; omega) (by norm_num; omega)
    omega
  · have hnil : Nat.digits 10 (generateRandomCodeNat r) ≠ [] :=
      Nat.digits_ne_nil_iff_ne_zero.mpr hne
    rw [List.getLast?_eq_getLast _ hnil]
    intro hcontra
    exact Nat.getLast_digit_ne_zero 10 hne (by injection hcontra)

/-- Witness for C10 at the concrete draw `r = 1/2` (code 550000). -/
theorem generateRandomCode_six_digits_witness :
    100000 ≤ generateRandomCodeNat (1/2) ∧ generateRandomCodeNat (1/2) ≤ 999999 ∧
    (Nat.digits 10 (generateRandomCodeNat (1/2))).length = 6 ∧
    (Nat.digits 10 (generateRandomCodeNat (1/2))).getLast? ≠ some 0 :=
  generateRandomCode_six_digits (1/2) (by norm_num) (by norm_num)

/-- Counterexample to claim C4: at a current time exactly equal to
`unblockAt`, `isIpBlocked` still reports the IP as blocked — the block
is not treated as expired at the boundary. -/
theorem isIpBlocked_true_at_exact_unblockAt :
    (isIpBlocked (blockIp 0 "192.0.2.1" "abuse" 1 []).1.unblockAt "192.0.2.1"
        (blockIp 0 "192.0.2.1" "abuse" 1 []).2).1 = true := by
  decide

/-- Claim C4 (amended): a block created with `durationHours = 1` is
active at `unblockAt − 1 s` and still active at exactly `unblockAt`
(lazy expiry is strict: a record is removed only when `now > unblockAt`),
and inactive at `unblockAt + 1 s`. -/
theorem isIpBlocked_boundary (now : Int) (ip reason : String) (store : IpStore) :
    (isIpBlocked ((blockIp now ip reason 1 store).1.unblockAt - 1000) ip
        (blockIp now ip reason 1 store).2).1 = true ∧
    (isIpBlocked (blockIp now ip reason 1 store).1.unblockAt ip
        (blockIp now ip reason 1 store).2).1 = true ∧
    (isIpBlocked ((blockIp now ip reason 1 store).1.unblockAt + 1000) ip
        (blockIp now ip reason 1 store).2).1 = false := by
  unfold blockIp isIpBlocked ipStoreGet ipStoreSet
  simp only [List.find?_cons_of_pos, decide_eq_true_eq]
  refine ⟨?_, ?_, ?_⟩ <;> split_ifs with h <;> first | rfl | omega

/-- Claim C9: `getPendingOtp` only ever returns records whose
`expiresAt` is strictly in the past (its query filters on
`expiresAt < now`); when every stored record is still unexpired —
in particular for a live `Pending` OTP — it returns `null`. -/
theorem getPendingOtp_returns_only_expired (now : Int) (purpose : OtpPurpose)
    (email phone : Option String) (store : List Otp) :
    (∀ o, getPendingOtp now purpose email phone store = some o →
        o.expiresAt < now ∧ o.status = OtpStatus.pending) ∧
    ((∀ o ∈ store, now ≤ o.expiresAt) →
        getPendingOtp now purpose email phone store = none) := by
  constructor
  · intro o ho
    have hp := List.find?_some ho
    simp only [Bool.and_eq_true, decide_eq_true_eq] at hp
    exact ⟨hp.2, hp.1.2⟩
  · intro hall
    unfold getPendingOtp
    rw [List.find?_eq_none]
    intro o ho
    have hno : ¬ o.expiresAt < now := not_lt.mpr (hall o ho)
    simp only [Bool.and_eq_true, decide_eq_true_eq, not_and]
    intros
    exact hno

/-- Witness for C9: a concrete store holding one expired pending record
for `(EMAIL_VERIFICATION, a@b.com)`; `getPendingOtp` returns it, and
the theorem certifies its `expiresAt` lies in the past. -/
theorem getPendingOtp_returns_only_expired_witness :
    getPendingOtp 10 OtpPurpose.emailVer (some "a@b.com") none [c9otp] =
        some c9otp ∧
    c9otp.expiresAt < 10 ∧ (∀ o ∈ [c5otp], (10 : Int) ≤ o.expiresAt) ∧
    getPendingOtp 10 OtpPurpose.emailVer (some "a@b.com") none [c5otp] = none := by
  refine ⟨by decide, ?_, by decide, ?_⟩
  · exact ((getPendingOtp_returns_only_expired 10 OtpPurpose.emailVer
      (some "a@b.com") none [c9otp]).1 c9otp (by decide)).1
  · exact (getPendingOtp_returns_only_expired 10 OtpPurpose.emailVer
      (some "a@b.com") none [c5otp]).2 (by decide)

/-- Claim C2 (code evaluation at the failing input): after a second
`generateOtp` for `(EMAIL_VERIFICATION, a@b.com)` supersedes the first
record (its status is `EXPIRED` while its `expiresAt = 60 s` is still
in the future), `verifyOtp` at `t = 45 s` against the first record with
its own code is NOT rejected: it succeeds and marks the record
`VERIFIED`, because `verifyOtp` checks only time-based expiry, never
the `EXPIRED` status written by `invalidatePreviousOtps`. -/
theorem superseded_otp_still_verifies :
    c2store2.head? = some c2firstOtp ∧
    c2firstOtp.status = OtpStatus.expired ∧
    (45000 : Int) < c2firstOtp.expiresAt ∧
    (verifyOtp 45000 c2firstOtp "325000").1 =
      Except.ok ⟨none, some "a@b.com", none⟩ ∧
    (verifyOtp 45000 c2firstOtp "325000").2.status = OtpStatus.verified := by
  exact ⟨by with_unfolding_all rfl, rfl, by decide, rfl, rfl⟩

/-- Counterexample to claim C3: three wrong-code attempts on a fresh
record (`maxAttempts = 3`) leave it with `attempts = 3` but status
still `Pending`, not `Failed`. -/
theorem third_wrong_attempt_leaves_pending :
    c3r3.attempts = 3 ∧ c3r3.status = OtpStatus.pending ∧
    c3r3.status ≠ OtpStatus.failed := by
  decide

/-- Claim C3 (amended): on an unexpired record with `maxAttempts = 3`
and `attempts = 0`, three wrong-code `verifyOtp` calls each increment
the counter, leaving `attempts = 3` and status still `Pending`; the
4th call is rejected with the max-attempts error, marks the record
`Failed` at that point, and does not increment the counter beyond 3. -/
theorem otp_fails_on_fourth_attempt (t1 t2 t3 t4 : Int) (o : Otp) (c : String)
    (h1 : ¬ t1 > o.expiresAt) (h2 : ¬ t2 > o.expiresAt) (h3 : ¬ t3 > o.expiresAt)
    (h4 : ¬ t4 > o.expiresAt) (hst : o.status = OtpStatus.pending)
    (hat : o.attempts = 0) (hmax : o.maxAttempts = 3) (hc : o.code ≠ c) :
    (verifyOtp t3 (verifyOtp t2 (verifyOtp t1 o c).2 c).2 c).2.attempts = 3 ∧
    (verifyOtp t3 (verifyOtp t2 (verifyOtp t1 o c).2 c).2 c).2.status =
      OtpStatus.pending ∧
    (verifyOtp t4 (verifyOtp t3 (verifyOtp t2 (verifyOtp t1 o c).2 c).2 c).2 c).1 =
      Except.error VerifyError.maxAttemptsExceeded ∧
    (verifyOtp t4 (verifyOtp t3 (verifyOtp t2 (verifyOtp t1 o c).2 c).2 c).2 c).2.status =
      OtpStatus.failed ∧
    (verifyOtp t4 (verifyOtp t3 (verifyOtp t2 (verifyOtp t1 o c).2 c).2 c).2 c).2.attempts =
      3 := by
  have e1 : (verifyOtp t1 o c).2 = { o with attempts := o.attempts + 1 } := by
    unfold verifyOtp
    rw [if_neg h1, if_neg (by simp [hst]), if_neg (by omega), if_pos hc]
  have e2 : (verifyOtp t2 (verifyOtp t1 o c).2 c).2 =
      { o with attempts := o.attempts + 2 } := by
    rw [e1]
    unfold verifyOtp
    rw [if_neg h2, if_neg (by simp [hst]), if_neg (by simp only [hat, hmax]; omega),
      if_pos (by simpa using hc)]
  have e3 : (verifyOtp t3 (verifyOtp t2 (verifyOtp t1 o c).2 c).2 c).2 =
      { o with attempts := o.attempts + 3 } := by
    rw [e2]
    unfold verifyOtp
    rw [if_neg h3, if_neg (by simp [hst]), if_neg (by simp only [hat, hmax]; omega),
      if_pos (by simpa using hc)]
  have e4 : verifyOtp t4 (verifyOtp t3 (verifyOtp t2 (verifyOtp t1 o c).2 c).2 c).2 c =
      (Except.error VerifyError.maxAttemptsExceeded,
        { o with attempts := o.attempts + 3, status := OtpStatus.failed }) := by
    rw [e3]
    unfold verifyOtp
    rw [if_neg h4, if_neg (by simp [hst]), if_pos (by simp only [hat, hmax]; omega)]
  rw [e4, e3]
  simp [hat, hst]

/-- Witness for the amended C3 at the concrete record `c3otp`. -/
theorem otp_fails_on_fourth_attempt_witness :
    (verifyOtp 2000 (verifyOtp 1000 (verifyOtp 0 c3otp "000000").2 "000000").2
        "000000").2.attempts = 3 ∧
    (verifyOtp 2000 (verifyOtp 1000 (verifyOtp 0 c3otp "000000").2 "000000").2
        "000000").2.status = OtpStatus.pending ∧
    (verifyOtp 3000 (verifyOtp 2000 (verifyOtp 1000 (verifyOtp 0 c3otp
        "000000").2 "000000").2 "000000").2 "000000").1 =
      Except.error VerifyError.maxAttemptsExceeded ∧
    (verifyOtp 3000 (verifyOtp 2000 (verifyOtp 1000 (verifyOtp 0 c3otp
        "000000").2 "000000").2 "000000").2 "000000").2.status =
      OtpStatus.failed ∧
    (verifyOtp 3000 (verifyOtp 2000 (verifyOtp 1000 (verifyOtp 0 c3otp
        "000000").2 "000000").2 "000000").2 "000000").2.attempts = 3 :=
  otp_fails_on_fourth_attempt 0 1000 2000 3000 c3otp "000000" (by decide)
    (by decide) (by decide) (by decide) (by decide) (by decide) (by decide)
    (by decide)

/-- Counterexample to claim C5: a `Verified` record whose `expiresAt`
has passed is not terminal — `verifyOtp` overwrites its status to
`Expired` and rejects it as expired rather than as already used. -/
theorem verified_expired_record_overwritten :
    c5otp.status = OtpStatus.verified ∧
    (verifyOtp 2000 c5otp "111111").1 = Except.error VerifyError.hasExpired ∧
    (verifyOtp 2000 c5otp "111111").2.status = OtpStatus.expired ∧
    (verifyOtp 2000 c5otp "111111").2.status ≠ c5otp.status := by
  exact ⟨rfl, rfl, rfl, by decide⟩

/-- Claim C5 (amended): on a record whose status is `Verified` or
`Failed` (a `Failed` record has exhausted its attempts), `verifyOtp`
never compares codes (its outcome is independent of the supplied code)
and never succeeds; while `expiresAt` has not passed the record is left
unchanged and an already-`Verified` record is rejected as already used;
once `expiresAt` has passed, `verifyOtp` instead overwrites the status
to `Expired` and rejects as expired. -/
theorem terminal_otp_policy (now : Int) (o : Otp)
    (hterm : o.status = OtpStatus.verified ∨ o.status = OtpStatus.failed)
    (hfa : o.status = OtpStatus.failed → o.maxAttempts ≤ o.attempts) :
    (∀ c₁ c₂ : String, verifyOtp now o c₁ = verifyOtp now o c₂) ∧
    (∀ (c : String) (ok : VerifyOk), (verifyOtp now o c).1 ≠ Except.ok ok) ∧
    (¬ now > o.expiresAt → ∀ c : String, (verifyOtp now o c).2 = o ∧
      (o.status = OtpStatus.verified →
        (verifyOtp now o c).1 = Except.error VerifyError.alreadyUsed)) ∧
    (now > o.expiresAt → ∀ c : String,
      (verifyOtp now o c).1 = Except.error VerifyError.hasExpired ∧
      (verifyOtp now o c).2.status = OtpStatus.expired) := by
  by_cases hexp : now > o.expiresAt
  · have he : ∀ c : String, verifyOtp now o c =
        (Except.error VerifyError.hasExpired, { o with status := OtpStatus.expired }) := by
      intro c
      unfold verifyOtp
      rw [if_pos hexp]
    refine ⟨fun c₁ c₂ => by rw [he c₁, he c₂], fun c ok => by rw [he c]; simp,
      fun h => absurd hexp h, fun _ c => by rw [he c]; exact ⟨rfl, rfl⟩⟩
  · rcases hterm with hv | hf
    · have he : ∀ c : String, verifyOtp now o c =
          (Except.error VerifyError.alreadyUsed, o) := by
        intro c
        unfold verifyOtp
        rw [if_neg hexp, if_pos hv]
      refine ⟨fun c₁ c₂ => by rw [he c₁, he c₂], fun c ok => by rw [he c]; simp,
        fun _ c => by rw [he c]; exact ⟨rfl, fun _ => rfl⟩, fun h => absurd h hexp⟩
    · have hrec : { o with status := OtpStatus.failed } = o := by
        cases o
        simp only [Otp.mk.injEq, and_true, true_and]
        simp_all
      have he : ∀ c : String, verifyOtp now o c =
          (Except.error VerifyError.maxAttemptsExceeded, o) := by
        intro c
        unfold verifyOtp
        rw [if_neg hexp, if_neg (by simp [hf]), if_pos (hfa hf), hrec]
      refine ⟨fun c₁ c₂ => by rw [he c₁, he c₂], fun c ok => by rw [he c]; simp,
        fun _ c => by rw [he c]; exact ⟨rfl, fun hvv => by rw [hf] at hvv; cases hvv⟩,
        fun h => absurd h hexp⟩

/-- Witness for the amended C5: an unexpired `Verified` record is left
unchanged and rejected as already used, independent of the code. -/
theorem terminal_otp_policy_witness :
    (verifyOtp 0 c5otp "999999").2 = c5otp ∧
    (verifyOtp 0 c5otp "999999").1 = Except.error VerifyError.alreadyUsed ∧
    verifyOtp 0 c5otp "999999" = verifyOtp 0 c5otp "123123" := by
  have h := terminal_otp_policy 0 c5otp (Or.inl rfl) (by decide)
  have h3 := h.2.2.1 (by decide) "999999"
  exact ⟨h3.1, h3.2 rfl, h.1 "999999" "123123"⟩

/-- Claim C7: the brute-force check answers `true` exactly when at
least 5 failed attempts fall within the last 15 minutes, or the key has
at least 5 recorded attempts whose last five span less than 30 seconds
end-to-end. -/
theorem checkBruteforce_iff (now : Int) (attempts : List LoginAttemptRecord) :
    checkBruteforceAttempt now attempts = true ↔
      5 ≤ recentFailureCount now attempts ∨ lastFiveBurst attempts := by
  have hcount : (attempts.filter fun a =>
      !a.success && decide (a.timestamp > now - 15 * 60 * 1000)).length =
      recentFailureCount now attempts := by
    unfold recentFailureCount
    rw [List.countP_eq_length_filter]
    congr 1
    apply List.filter_congr
    intro a _
    cases h : a.success <;> simp [h, gt_iff_lt]
  unfold checkBruteforceAttempt lastFiveBurst
  by_cases hlen : 5 ≤ attempts.length
  · rw [if_pos hlen]
    have h05 : attempts.length - 5 < attempts.length := by omega
    have h15 : attempts.length - 1 < attempts.length := by omega
    have e0 : (attempts.drop (attempts.length - 5)).getD 0 dummyAttempt =
        attempts[attempts.length - 5] := by
      rw [List.getD_eq_getElem?_getD, List.getElem?_drop, Nat.add_zero,
        List.getElem?_eq_getElem h05]
      rfl
    have e4 : (attempts.drop (attempts.length - 5)).getD 4 dummyAttempt =
        attempts[attempts.length - 1] := by
      rw [List.getD_eq_getElem?_getD, List.getElem?_drop]
      have h54 : attempts.length - 5 + 4 = attempts.length - 1 := by omega
      rw [h54, List.getElem?_eq_getElem h15]
      rfl
    have ehead : (attempts.drop (attempts.length - 5)).head? =
        some (attempts[attempts.length - 5]) := by
      rw [List.head?_eq_getElem?, List.getElem?_drop, Nat.add_zero,
        List.getElem?_eq_getElem h05]
    have elast : attempts.getLast? = some (attempts[attempts.length - 1]) := by
      rw [List.getLast?_eq_getElem?, List.getElem?_eq_getElem h15]
    simp only [e0, e4]
    by_cases hdiff : (attempts[attempts.length - 1]).timestamp -
        (attempts[attempts.length - 5]).timestamp < 30 * 1000
    · rw [if_pos hdiff]
      constructor
      · intro _
        exact Or.inr ⟨hlen, _, _, ehead, elast, hdiff⟩
      · intro _
        rfl
    · rw [if_neg hdiff]
      constructor
      · intro h
        rw [decide_eq_true_eq, hcount] at h
        exact Or.inl h
      · rintro (h | ⟨_, a, b, ha, hb, hspan⟩)
        · rw [decide_eq_true_eq, hcount]
          exact h
        · rw [ehead] at ha
          rw [elast] at hb
          cases ha
          cases hb
          exact absurd hspan hdiff
  · rw [if_neg hlen]
    constructor
    · intro h
      rw [decide_eq_true_eq, hcount] at h
      exact Or.inl h
    · rintro (h | ⟨h5, _⟩)
      · rw [decide_eq_true_eq, hcount]
        exact h
      · exact absurd h5 hlen

/-- Counterexample to claim C1: for a known account with no phone on
file, even when every other conjunct holds (e-mail verified, no fraud,
clean IP, valid session), `checkLoginEligibility` returns
`canLogin = false` — the `phoneVerified` conjunct is required
unconditionally, so `canLogin` can never be `true` without a phone. -/
theorem no_phone_account_never_canLogin :
    c1user.phone = none ∧
    (checkLoginEligibility 0 (some c1user) false true (fun _ => true)
        (checkIpFraud "10.0.0.1" mockIpReputation false true 0) false none
        (fun _ => true)).emailVerified = true ∧
    (checkLoginEligibility 0 (some c1user) false true (fun _ => true)
        (checkIpFraud "10.0.0.1" mockIpReputation false true 0) false none
        (fun _ => true)).fraudCheckPassed = true ∧
    (checkLoginEligibility 0 (some c1user) false true (fun _ => true)
        (checkIpFraud "10.0.0.1" mockIpReputation false true 0) false none
        (fun _ => true)).ipClean = true ∧
    (checkLoginEligibility 0 (some c1user) false true (fun _ => true)
        (checkIpFraud "10.0.0.1" mockIpReputation false true 0) false none
        (fun _ => true)).sessionValid = true ∧
    (checkLoginEligibility 0 (some c1user) false true (fun _ => true)
        (checkIpFraud "10.0.0.1" mockIpReputation false true 0) false none
        (fun _ => true)).canLogin = false := by
  exact ⟨rfl, rfl, rfl, rfl, rfl, rfl⟩

/-- Claim C1 (amended): for every known account,
`checkLoginEligibility` returns a status whose `canLogin` equals the
unconditional conjunction of all five boolean fields
(`emailVerified ∧ phoneVerified ∧ fraudCheckPassed ∧ ipClean ∧
sessionValid`); when the account has no phone on file `phoneVerified`
is always `false`, so `canLogin` is always `false`. -/
theorem canLogin_is_full_conjunction (now : Int) (u : UserAcct)
    (ipBlocked emailOtpVerified : Bool) (phoneOtpVerified : String → Bool)
    (ipFraud : FraudCheckResult) (bruteforce : Bool)
    (deviceFingerprint : Option String) (deviceTrusted : String → Bool) :
    ((checkLoginEligibility now (some u) ipBlocked emailOtpVerified
        phoneOtpVerified ipFraud bruteforce deviceFingerprint
        deviceTrusted).canLogin =
      ((checkLoginEligibility now (some u) ipBlocked emailOtpVerified
          phoneOtpVerified ipFraud bruteforce deviceFingerprint
          deviceTrusted).emailVerified &&
        (checkLoginEligibility now (some u) ipBlocked emailOtpVerified
          phoneOtpVerified ipFraud bruteforce deviceFingerprint
          deviceTrusted).phoneVerified &&
        (checkLoginEligibility now (some u) ipBlocked emailOtpVerified
          phoneOtpVerified ipFraud bruteforce deviceFingerprint
          deviceTrusted).fraudCheckPassed &&
        (checkLoginEligibility now (some u) ipBlocked emailOtpVerified
          phoneOtpVerified ipFraud bruteforce deviceFingerprint
          deviceTrusted).ipClean &&
        (checkLoginEligibility now (some u) ipBlocked emailOtpVerified
          phoneOtpVerified ipFraud bruteforce deviceFingerprint
          deviceTrusted).sessionValid)) ∧
    (u.phone = none →
      (checkLoginEligibility now (some u) ipBlocked emailOtpVerified
        phoneOtpVerified ipFraud bruteforce deviceFingerprint
        deviceTrusted).phoneVerified = false ∧
      (checkLoginEligibility now (some u) ipBlocked emailOtpVerified
        phoneOtpVerified ipFraud bruteforce deviceFingerprint
        deviceTrusted).canLogin = false) := by
  constructor
  · rfl
  · intro hp
    unfold checkLoginEligibility
    simp [hp]

/-- Witness for the amended C1 at the concrete no-phone account
`c1user`. -/
theorem canLogin_is_full_conjunction_witness :
    (checkLoginEligibility 5 (some c1user) false true (fun _ => true)
        (checkEmailFraud "ok@gmail.com" true) false none
        (fun _ => true)).phoneVerified = false ∧
    (checkLoginEligibility 5 (some c1user) false true (fun _ => true)
        (checkEmailFraud "ok@gmail.com" true) false none
        (fun _ => true)).canLogin = false :=
  (canLogin_is_full_conjunction 5 c1user false true (fun _ => true)
    (checkEmailFraud "ok@gmail.com" true) false none (fun _ => true)).2 rfl

/-- Claim C8: during login, an invalid-password attempt (on an account
allowed to attempt login) increments `failedLoginAttempts` by one, and
when the counter reaches 5 the account is locked until 15 minutes from
that moment; a successful outcome requires — when MFA is enabled — a
supplied TOTP code accepted with window 2 (±2 steps), and always leaves
the saved account with `failedLoginAttempts = 0` and the lock
cleared. -/
theorem signin_lockout_and_reset (now : Int)
    (totpVerify : String → String → Nat → Bool) (u : UserAcct) (pwOk : Bool)
    (mfaCode : Option String) (ip : String) :
    (canAttemptLogin now u = true → pwOk = false →
      ∃ u2, (signin now totpVerify (some u) pwOk mfaCode ip).2 = some u2 ∧
        u2.failedLoginAttempts = u.failedLoginAttempts + 1 ∧
        (5 ≤ u.failedLoginAttempts + 1 →
          u2.lockedUntil = some (now + 15 * 60 * 1000) ∧
          u2.status = UserStatus.suspended) ∧
        (u.failedLoginAttempts + 1 < 5 → u2.lockedUntil = u.lockedUntil)) ∧
    (∀ r, (signin now totpVerify (some u) pwOk mfaCode ip).1 = Except.ok r →
      (u.mfaEnabled = true →
        ∃ c, mfaCode = some c ∧ totpVerify u.mfaSecret c 2 = true) ∧
      ∃ u2, (signin now totpVerify (some u) pwOk mfaCode ip).2 = some u2 ∧
        u2.failedLoginAttempts = 0 ∧ u2.lockedUntil = none) := by
  constructor
  · intro hcan hpw
    simp only [signin, hcan, hpw, Bool.not_true, Bool.not_false, Bool.false_eq_true,
      if_false, if_true]
    by_cases h5 : u.failedLoginAttempts + 1 ≥ 5
    · rw [if_pos h5]
      exact ⟨_, rfl, rfl, fun _ => ⟨rfl, rfl⟩, fun hlt => absurd h5 (by omega)⟩
    · rw [if_neg h5]
      exact ⟨_, rfl, rfl, fun hge => absurd hge h5, fun _ => rfl⟩
  · intro r hr
    cases hcan : canAttemptLogin now u
    · simp only [signin, hcan, Bool.not_false, if_true] at hr
      cases hr
    · cases hpw : pwOk
      · simp only [signin, hcan, hpw, Bool.not_true, Bool.not_false,
          Bool.false_eq_true, if_false, if_true] at hr
        cases hr
      · cases hmfa : u.mfaEnabled
        · have hval : signin now totpVerify (some u) true mfaCode ip =
              (Except.ok (),
                some { u with failedLoginAttempts := 0, lockedUntil := none
                              lastLoginAt := some now, lastLoginIp := some ip
                              status := UserStatus.active }) := by
            simp only [signin, hcan, hmfa, Bool.not_true, Bool.false_eq_true,
              if_false]
          exact ⟨fun h => absurd h (by decide),
            { u with failedLoginAttempts := 0, lockedUntil := none
                     lastLoginAt := some now, lastLoginIp := some ip
                     status := UserStatus.active }, by rw [hval], rfl, rfl⟩
        · rcases hmc : mfaCode with _ | c
          · simp only [signin, hcan, hpw, hmfa, hmc, Bool.not_true,
              Bool.false_eq_true, if_false] at hr
            cases hr
          · cases htv : totpVerify u.mfaSecret c 2
            · simp only [signin, hcan, hpw, hmfa, hmc, htv, Bool.not_true,
                Bool.not_false, Bool.false_eq_true, if_false, if_true] at hr
              cases hr
            · have hval : signin now totpVerify (some u) true (some c) ip =
                  (Except.ok (),
                    some { u with failedLoginAttempts := 0, lockedUntil := none
                                  lastLoginAt := some now, lastLoginIp := some ip
                                  status := UserStatus.active }) := by
                simp only [signin, hcan, hmfa, htv, Bool.not_true,
                  Bool.not_false, Bool.false_eq_true, if_false, if_true]
              exact ⟨fun _ => ⟨c, rfl, htv⟩,
                { u with failedLoginAttempts := 0, lockedUntil := none
                         lastLoginAt := some now, lastLoginIp := some ip
                         status := UserStatus.active }, by rw [hval], rfl, rfl⟩

/-- Witness for C8: the account `c8user` sits at four failed attempts;
one more invalid password locks it for 15 minutes from `now = 0`. -/
theorem signin_lockout_and_reset_witness :
    ∃ u2, (signin 0 (fun _ _ _ => true) (some c8user) false none "9.9.9.9").2 =
        some u2 ∧
      u2.failedLoginAttempts = c8user.failedLoginAttempts + 1 ∧
      (5 ≤ c8user.failedLoginAttempts + 1 →
        u2.lockedUntil = some (0 + 15 * 60 * 1000) ∧
        u2.status = UserStatus.suspended) ∧
      (c8user.failedLoginAttempts + 1 < 5 → u2.lockedUntil = c8user.lockedUntil) :=
  (signin_lockout_and_reset 0 (fun _ _ _ => true) c8user false none "9.9.9.9").1
    (by decide) rfl

end AtoZ
